import Mathlib

/-!
Verification development for the bosh-agent slice consisting of the HTTPS
dispatcher (package httpsdispatcher) and the platform provider
(src/platform/provider.go).

The httpsdispatcher package ships only its test file in this source slice
(src/httpsdispatcher/https_dispatcher_test.go); the implementation of
HTTPSDispatcher (NewHTTPSDispatcher, Start, Stop, AddRoute, the TLS policy)
is absent, so those operations are modelled from the spec (sections 4.1-4.3,
5, 7 of spec.md), faithful to its words.  The platform provider is embedded
directly from src/platform/provider.go.
-/

set_option autoImplicit false

namespace BoshAgent

/-- Modelled from the spec: an abstract request view, "method, path, headers,
body" (section 6); headers are irrelevant to every claim and elided. -/
structure Request where
  method : String
  path : String
  body : String
  deriving DecidableEq

/-- Modelled from the spec: an abstract response sink reduced to status code
and body (section 6). -/
structure Response where
  status : Nat
  body : String
  deriving DecidableEq

/-- Modelled from the spec: a handler is a caller-supplied capability turning
a request into a response, opaque to the dispatcher (section 3). -/
def Handler : Type := Request → Response

/-- Modelled from the spec: dispatcher lifecycle states Created, Running,
Stopped (section 4.1). -/
inductive DispatcherState where
  | created
  | running
  | stopped
  deriving DecidableEq

/-- Modelled from the spec: the dispatcher owns a bound address, an in-memory
route table (exact-path keys, one handler per path realised as a
first-match-wins association list with registration prepending), a lifecycle
state and the listener handle (present iff open).  Missing from src/:
httpsdispatcher.HTTPSDispatcher. -/
structure HTTPSDispatcher where
  boundAddress : String
  routes : List (String × Handler)
  state : DispatcherState
  listenerOpen : Bool

/-- Modelled from the spec: construction parses host and port from the target
URL and acquires no network resource; state Created (section 4.1).  Missing
from src/: httpsdispatcher.NewHTTPSDispatcher. -/
def NewHTTPSDispatcher (hostPort : String) : HTTPSDispatcher :=
  { boundAddress := hostPort
    routes := []
    state := DispatcherState.created
    listenerOpen := false }

/-- Modelled from the spec: AddRoute(path, handler) registers a handler for an
exact path, valid in any state, replacing any previous handler for the same
path, last-write-wins (sections 3, 4.1).  Missing from src/:
httpsdispatcher.HTTPSDispatcher.AddRoute. -/
def AddRoute (d : HTTPSDispatcher) (path : String) (handler : Handler) : HTTPSDispatcher :=
  { d with routes := (path, handler) :: d.routes }

/-- Modelled from the spec: route lookup by exact string match, no wildcard or
prefix semantics (section 4.2); the newest registration for a path is the one
found. -/
def lookupRoute (d : HTTPSDispatcher) (path : String) : Option Handler :=
  d.routes.lookup path

/-- Modelled from the spec: HTTP 404 with no body, the response for an
unmatched path (section 4.2). -/
def notFoundResponse : Response :=
  { status := 404, body := "" }

/-- Modelled from the spec: on each decrypted request, look up the path; if
found invoke the handler, which is fully responsible for status and body; if
not found respond 404 with empty body without invoking any handler
(section 4.2).  Missing from src/: the dispatcher's request routing. -/
def dispatch (d : HTTPSDispatcher) (req : Request) : Response :=
  match lookupRoute d req.path with
  | some handler => handler req
  | none => notFoundResponse

/-- Modelled from the spec: Stop closes the listener and moves to state
Stopped; callable in any state without crashing, at worst a no-op
(section 4.1).  Missing from src/: httpsdispatcher.HTTPSDispatcher.Stop. -/
def Stop (d : HTTPSDispatcher) : HTTPSDispatcher :=
  { d with state := DispatcherState.stopped, listenerOpen := false }

/-- Modelled from the spec: no new connections are accepted once the listener
is closed (section 4.1). -/
def acceptsNewConnections (d : HTTPSDispatcher) : Bool :=
  d.listenerOpen

/-- TLS protocol version code for SSL 3.0 (0x0300), as in Go crypto/tls. -/
def versionSSL30 : Nat := 768

/-- TLS protocol version code for TLS 1.0 (0x0301), as in Go crypto/tls. -/
def versionTLS10 : Nat := 769

/-- TLS protocol version code for TLS 1.1 (0x0302), as in Go crypto/tls. -/
def versionTLS11 : Nat := 770

/-- TLS protocol version code for TLS 1.2 (0x0303), as in Go crypto/tls. -/
def versionTLS12 : Nat := 771

/-- Cipher suites appearing in the dispatcher policy and its tests, named as
the Go crypto/tls constants without the TLS marker. -/
inductive CipherSuite where
  | RSA_WITH_RC4_128_SHA
  | RSA_WITH_3DES_EDE_CBC_SHA
  | RSA_WITH_AES_128_CBC_SHA
  | RSA_WITH_AES_256_CBC_SHA
  | ECDHE_ECDSA_WITH_RC4_128_SHA
  | ECDHE_RSA_WITH_RC4_128_SHA
  | ECDHE_RSA_WITH_3DES_EDE_CBC_SHA
  | ECDHE_RSA_WITH_AES_128_CBC_SHA
  | ECDHE_RSA_WITH_AES_256_CBC_SHA
  | ECDHE_ECDSA_WITH_AES_128_CBC_SHA
  | ECDHE_ECDSA_WITH_AES_256_CBC_SHA
  | ECDHE_RSA_WITH_AES_128_GCM_SHA256
  | ECDHE_ECDSA_WITH_AES_128_GCM_SHA256
  deriving DecidableEq

/-- Modelled from the spec: the cipher suite allow-list, "ECDHE-authenticated
AES-GCM and AES-CBC suites (128 and 256-bit)" (section 4.3); RC4 and 3DES
based suites are absent. -/
def approvedCipherSuites : List CipherSuite :=
  [ CipherSuite.ECDHE_RSA_WITH_AES_128_GCM_SHA256
  , CipherSuite.ECDHE_ECDSA_WITH_AES_128_GCM_SHA256
  , CipherSuite.ECDHE_RSA_WITH_AES_128_CBC_SHA
  , CipherSuite.ECDHE_RSA_WITH_AES_256_CBC_SHA
  , CipherSuite.ECDHE_ECDSA_WITH_AES_128_CBC_SHA
  , CipherSuite.ECDHE_ECDSA_WITH_AES_256_CBC_SHA ]

/-- Modelled from the spec: the static per-instance TLS policy, a minimum
protocol version and a cipher suite allow-list (section 4.3). -/
structure TLSPolicy where
  minVersion : Nat
  cipherSuites : List CipherSuite

/-- Modelled from the spec: the dispatcher's fixed policy, minimum version
TLS 1.0, maximum unbounded, approved suites only (section 4.3).  Missing from
src/: the tls.Config built inside Start. -/
def dispatcherTLSPolicy : TLSPolicy :=
  { minVersion := versionTLS10, cipherSuites := approvedCipherSuites }

/-- Client hello data relevant to the policy: the version range the client
supports and the suites it offers (as configured in the tests via tls.Config
MinVersion, MaxVersion and CipherSuites). -/
structure ClientHello where
  minVersion : Nat
  maxVersion : Nat
  cipherSuites : List CipherSuite

/-- Modelled from the spec: the handshake succeeds iff the version ranges
overlap (server range is unbounded above the policy minimum) and the client
offers at least one suite on the allow-list; a client offering only
disallowed suites fails the handshake, never downgrades (section 4.3). -/
def handshakeOK (policy : TLSPolicy) (hello : ClientHello) : Bool :=
  decide (hello.minVersion ≤ hello.maxVersion) &&
  decide (policy.minVersion ≤ hello.maxVersion) &&
  hello.cipherSuites.any (fun s => policy.cipherSuites.contains s)

/-- Modelled from the spec: a connection is served only after a successful
handshake under the fixed policy; when the handshake fails no request is ever
dispatched (sections 4.3, 7). -/
def handleConnection (d : HTTPSDispatcher) (hello : ClientHello) (req : Request) :
    Option Response :=
  if handshakeOK dispatcherTLSPolicy hello then some (dispatch d req) else none

/-- RC4-based suites among the modelled ones (the three the tests offer). -/
def isRC4Suite : CipherSuite → Bool
  | CipherSuite.RSA_WITH_RC4_128_SHA => true
  | CipherSuite.ECDHE_ECDSA_WITH_RC4_128_SHA => true
  | CipherSuite.ECDHE_RSA_WITH_RC4_128_SHA => true
  | _ => false

/-- 3DES-based suites among the modelled ones (the two the tests offer). -/
def is3DESSuite : CipherSuite → Bool
  | CipherSuite.RSA_WITH_3DES_EDE_CBC_SHA => true
  | CipherSuite.ECDHE_RSA_WITH_3DES_EDE_CBC_SHA => true
  | _ => false

/-- Modelled from the spec: how each accepted connection ends, as seen by the
serve loop; every variant is handled per-connection (sections 4.4, 7). -/
inductive ConnectionEvent where
  | handshakeRejected
  | handlerFailed
  | routeNotFound
  | served

/-- Modelled from the spec: the serve loop handles each connection locally and
only ends when Stop closes the listener, at which point Start returns nil
(sections 4.1, 7). -/
def serveLoop : List ConnectionEvent → Option String
  | [] => none
  | _ :: rest => serveLoop rest

/-- Modelled from the spec: Start binds the listener, surfacing bind and
TLS-configuration failures synchronously as its error, then serves until
shutdown is requested via Stop, returning nil (section 4.1).  Missing from
src/: httpsdispatcher.HTTPSDispatcher.Start. -/
def Start (bindResult : Except String Unit) (connections : List ConnectionEvent) :
    Option String :=
  match bindResult with
  | Except.error e => some e
  | Except.ok _ => serveLoop connections

/-- A concrete handler used by witnesses: respond with a fixed status and
empty body. -/
def constHandler (status : Nat) : Handler :=
  fun _ => { status := status, body := "" }

/-! Platform provider, embedded from src/platform/provider.go.  The external
collaborators (logger, file system, command runner, stats collector, directory
provider, bootstrap state) come from other packages, carry no data the claims
depend on, and are elided; what remains mirrors the option-dependent wiring. -/

/-- Linux platform options used in NewProvider (settings.LinuxOptions); the
field named VirtioDevicePrefix in Go is rendered VirtioDevicePrefixStr. -/
structure LinuxOptions where
  DevicePathResolutionType : String
  VirtioDevicePrefixStr : String
  BindMountPersistentDisk : Bool
  deriving DecidableEq

/-- Options passed to NewProvider (provider.go line 42). -/
structure Options where
  Linux : LinuxOptions
  deriving DecidableEq

/-- Device path resolvers constructible by NewProvider (provider.go lines
84-97), with the timeouts in milliseconds and the virtio device path resolver
keeping the configured device path root it is built from. -/
inductive DevicePathResolver where
  | virtioResolver (idResolverTimeoutMs : Nat) (devPathRoot : String)
      (mappedResolverTimeoutMs : Nat)
  | scsiResolver (scsiIDTimeoutMs : Nat) (scsiVolumeIDTimeoutMs : Nat)
  | identityResolver
  deriving DecidableEq

/-- The devicePathResolver switch of NewProvider (provider.go lines 84-97):
"virtio" builds the virtio resolver from an ID resolver (500 ms, the
configured virtio device root) and a mapped resolver (500 ms); "scsi" builds
the SCSI resolver from ID (50000 ms) and volume-ID (500 ms) resolvers; every
other value falls to the default arm and the identity resolver, with no
error. -/
def selectDevicePathResolver (options : Options) : DevicePathResolver :=
  match options.Linux.DevicePathResolutionType with
  | "virtio" =>
      DevicePathResolver.virtioResolver 500 options.Linux.VirtioDevicePrefixStr 500
  | "scsi" => DevicePathResolver.scsiResolver 50000 500
  | _ => DevicePathResolver.identityResolver

/-- Network managers wired by NewProvider (provider.go lines 72-73). -/
inductive NetManager where
  | centosNet
  | ubuntuNet
  deriving DecidableEq

/-- Certificate managers wired by NewProvider (provider.go lines 75-76), with
the sleep interval argument they are constructed with. -/
inductive CertManager where
  | centosCert (interval : Nat)
  | ubuntuCert (interval : Nat)
  deriving DecidableEq

/-- Platforms constructible by NewProvider: NewLinuxPlatform applied to the
option-dependent arguments (net manager, cert manager, device path resolver,
Linux options), and NewDummyPlatform with its device path resolver. -/
inductive Platform where
  | linux (netManager : NetManager) (certManager : CertManager)
      (devicePathResolver : DevicePathResolver) (opts : LinuxOptions)
  | dummy (devicePathResolver : DevicePathResolver)
  deriving DecidableEq

/-- Device path resolver a constructed platform holds. -/
def platformResolver : Platform → DevicePathResolver
  | Platform.linux _ _ r _ => r
  | Platform.dummy r => r

/-- The provider struct (provider.go line 38): a map from platform name to
platform, embedded as an association list whose keys are distinct. -/
structure provider where
  platforms : List (String × Platform)

/-- NewProvider (provider.go lines 46-148): selects one device path resolver
from the options and builds the map {ubuntu, centos, dummy}, passing the same
resolver to all three platforms. -/
def NewProvider (options : Options) : provider :=
  let devicePathResolver := selectDevicePathResolver options
  let centos := Platform.linux NetManager.centosNet (CertManager.centosCert 0)
    devicePathResolver options.Linux
  let ubuntu := Platform.linux NetManager.ubuntuNet (CertManager.ubuntuCert 60)
    devicePathResolver options.Linux
  { platforms :=
      [ ("ubuntu", ubuntu)
      , ("centos", centos)
      , ("dummy", Platform.dummy devicePathResolver) ] }

/-- provider.Get (provider.go lines 150-156): look the name up in the map; if
absent return the error "Platform <name> could not be found", else the
platform.  The Go pair (Platform, error), exactly one side non-nil, is
rendered Except. -/
def provider.Get (p : provider) (name : String) : Except String Platform :=
  match p.platforms.lookup name with
  | some plat => Except.ok plat
  | none => Except.error ("Platform " ++ name ++ " could not be found")

/-! Helper lemmas on association-list lookup, shared by the route-table and
provider theorems. -/

/-- Lookup misses when no pair in the list carries the key. -/
theorem lookup_eq_none_of_keys {α : Type} {β : Type} [BEq α] [LawfulBEq α] :
    ∀ (l : List (α × β)) (k : α), (∀ pr ∈ l, pr.1 ≠ k) → l.lookup k = none := by
  intro l k h
  induction l with
  | nil => rfl
  | cons hd tl ih =>
      have hne : hd.1 ≠ k := h hd (List.mem_cons_self hd tl)
      have hbeq : (k == hd.1) = false := by
        simp [beq_eq_false_iff_ne]
        exact fun he => hne he.symm
      simp [List.lookup, hbeq]
      intro a b hab he
      exact h (a, b) (List.mem_cons_of_mem hd hab) he.symm

/-- Lookup in an append finds the value of a pair of the first part when that
part's keys are distinct. -/
theorem lookup_append_of_mem {α : Type} {β : Type} [BEq α] [LawfulBEq α] :
    ∀ (l1 l2 : List (α × β)) (k : α) (v : β),
      (l1.map Prod.fst).Nodup → (k, v) ∈ l1 → (l1 ++ l2).lookup k = some v := by
  intro l1 l2 k v hnd hmem
  induction l1 with
  | nil => cases hmem
  | cons hd tl ih =>
      rcases List.mem_cons.mp hmem with heq | htl
      · subst heq
        simp [List.lookup]
      · have hk : k ∈ tl.map Prod.fst := List.mem_map.mpr ⟨(k, v), htl, rfl⟩
        have hne : hd.1 ≠ k := by
          intro he
          have : hd.1 ∉ tl.map Prod.fst := (List.nodup_cons.mp (by simpa using hnd)).1
          exact this (he ▸ hk)
        have hbeq : (k == hd.1) = false := by
          simp [beq_eq_false_iff_ne]
          exact fun he => hne he.symm
        simp [List.lookup, hbeq]
        exact ih (List.nodup_cons.mp (by simpa using hnd)).2 htl

/-- The serve loop handles every connection event locally and ends with no
error. -/
theorem serveLoop_eq_none : ∀ connections : List ConnectionEvent,
    serveLoop connections = none := by
  intro connections
  induction connections with
  | nil => rfl
  | cons hd tl ih => simpa [serveLoop] using ih

/-- Folding AddRoute over a registration list prepends the list reversed. -/
theorem foldl_AddRoute_routes :
    ∀ (regs : List (String × Handler)) (d : HTTPSDispatcher),
      (regs.foldl (fun acc pr => AddRoute acc pr.1 pr.2) d).routes =
        regs.reverse ++ d.routes := by
  intro regs
  induction regs with
  | nil => intro d; rfl
  | cons hd tl ih =>
      intro d
      rw [List.foldl_cons, ih]
      simp [AddRoute]

/-- RC4-based suites are not on the allow-list. -/
theorem rc4_not_approved :
    ∀ s : CipherSuite, isRC4Suite s = true → s ∉ approvedCipherSuites := by
  intro s hs
  cases s <;> simp_all [isRC4Suite, approvedCipherSuites]

/-- 3DES-based suites are not on the allow-list. -/
theorem tripleDES_not_approved :
    ∀ s : CipherSuite, is3DESSuite s = true → s ∉ approvedCipherSuites := by
  intro s hs
  cases s <;> simp_all [is3DESSuite, approvedCipherSuites]

/-- C1: for every incoming connection whose client offers at least one
approved suite, the handshake succeeds for client protocol versions TLS 1.0,
TLS 1.1 and TLS 1.2 and fails for SSL 3.0 and anything weaker; when the
handshake fails no request is ever dispatched to a handler. -/
theorem C1_tls_version_policy (d : HTTPSDispatcher) (req : Request)
    (suites : List CipherSuite)
    (hs : ∃ s ∈ suites, s ∈ approvedCipherSuites) :
    (∀ v, v = versionTLS10 ∨ v = versionTLS11 ∨ v = versionTLS12 →
      handshakeOK dispatcherTLSPolicy
        { minVersion := v, maxVersion := v, cipherSuites := suites } = true) ∧
    (∀ vmin vmax, vmax ≤ versionSSL30 →
      handshakeOK dispatcherTLSPolicy
        { minVersion := vmin, maxVersion := vmax, cipherSuites := suites } = false) ∧
    (∀ hello : ClientHello, handshakeOK dispatcherTLSPolicy hello = false →
      handleConnection d hello req = none) := by
  refine ⟨?_, ?_, ?_⟩
  · intro v hv
    have h10 : versionTLS10 ≤ v := by
      rcases hv with h | h | h <;>
        simp [h, versionTLS10, versionTLS11, versionTLS12]
    simp only [handshakeOK, dispatcherTLSPolicy]
    simp [h10]
    exact hs
  · intro vmin vmax hle
    have hlt : ¬ versionTLS10 ≤ vmax := by
      simp only [versionTLS10]
      simp only [versionSSL30] at hle
      omega
    simp [handshakeOK, dispatcherTLSPolicy, hlt]
  · intro hello hfail
    simp [handleConnection, hfail]

/-- Witness for C1: TLS 1.2 with an approved suite succeeds, SSL 3.0 fails,
and the failed handshake dispatches nothing. -/
theorem C1_tls_version_policy_witness :
    handshakeOK dispatcherTLSPolicy
      { minVersion := versionTLS12, maxVersion := versionTLS12,
        cipherSuites := [CipherSuite.ECDHE_RSA_WITH_AES_128_GCM_SHA256] } = true ∧
    handshakeOK dispatcherTLSPolicy
      { minVersion := versionSSL30, maxVersion := versionSSL30,
        cipherSuites := [CipherSuite.ECDHE_RSA_WITH_AES_128_GCM_SHA256] } = false ∧
    handleConnection (NewHTTPSDispatcher "127.0.0.1:7788")
      { minVersion := versionSSL30, maxVersion := versionSSL30,
        cipherSuites := [CipherSuite.ECDHE_RSA_WITH_AES_128_GCM_SHA256] }
      { method := "GET", path := "/example", body := "" } = none := by
  have h := C1_tls_version_policy (NewHTTPSDispatcher "127.0.0.1:7788")
    { method := "GET", path := "/example", body := "" }
    [CipherSuite.ECDHE_RSA_WITH_AES_128_GCM_SHA256] (by decide)
  refine ⟨h.1 versionTLS12 (Or.inr (Or.inr rfl)),
    h.2.1 versionSSL30 versionSSL30 (by decide), ?_⟩
  exact h.2.2 _ (h.2.1 versionSSL30 versionSSL30 (by decide))

/-- C2: a client offering only RC4-based or only 3DES-based suites fails the
handshake (no downgrade); a client in the accepted version range offering any
approved ECDHE-authenticated AES suite succeeds. -/
theorem C2_cipher_suite_policy (hello : ClientHello) :
    ((∀ s ∈ hello.cipherSuites, isRC4Suite s = true) →
      handshakeOK dispatcherTLSPolicy hello = false) ∧
    ((∀ s ∈ hello.cipherSuites, is3DESSuite s = true) →
      handshakeOK dispatcherTLSPolicy hello = false) ∧
    (hello.minVersion ≤ hello.maxVersion → versionTLS10 ≤ hello.maxVersion →
      (∃ s ∈ hello.cipherSuites, s ∈ approvedCipherSuites) →
      handshakeOK dispatcherTLSPolicy hello = true) := by
  refine ⟨?_, ?_, ?_⟩
  · intro hall
    simp [handshakeOK, dispatcherTLSPolicy]
    intro _ _ x hx
    exact rc4_not_approved x (hall x hx)
  · intro hall
    simp [handshakeOK, dispatcherTLSPolicy]
    intro _ _ x hx
    exact tripleDES_not_approved x (hall x hx)
  · rintro h1 h2 ⟨s, hsmem, happr⟩
    simp [handshakeOK, dispatcherTLSPolicy, h1, h2]
    exact ⟨s, hsmem, happr⟩

/-- Witness for C2: the RC4-only and 3DES-only offers of the tests fail, the
AES offer of the tests succeeds. -/
theorem C2_cipher_suite_policy_witness :
    handshakeOK dispatcherTLSPolicy
      { minVersion := versionTLS10, maxVersion := versionTLS12,
        cipherSuites := [CipherSuite.RSA_WITH_RC4_128_SHA,
          CipherSuite.ECDHE_ECDSA_WITH_RC4_128_SHA,
          CipherSuite.ECDHE_RSA_WITH_RC4_128_SHA] } = false ∧
    handshakeOK dispatcherTLSPolicy
      { minVersion := versionTLS10, maxVersion := versionTLS12,
        cipherSuites := [CipherSuite.RSA_WITH_3DES_EDE_CBC_SHA,
          CipherSuite.ECDHE_RSA_WITH_3DES_EDE_CBC_SHA] } = false ∧
    handshakeOK dispatcherTLSPolicy
      { minVersion := versionTLS10, maxVersion := versionTLS12,
        cipherSuites := [CipherSuite.RSA_WITH_AES_128_CBC_SHA,
          CipherSuite.RSA_WITH_AES_256_CBC_SHA,
          CipherSuite.ECDHE_ECDSA_WITH_AES_128_CBC_SHA,
          CipherSuite.ECDHE_ECDSA_WITH_AES_256_CBC_SHA,
          CipherSuite.ECDHE_RSA_WITH_AES_128_CBC_SHA,
          CipherSuite.ECDHE_RSA_WITH_AES_256_CBC_SHA,
          CipherSuite.ECDHE_RSA_WITH_AES_128_GCM_SHA256,
          CipherSuite.ECDHE_ECDSA_WITH_AES_128_GCM_SHA256] } = true :=
  ⟨(C2_cipher_suite_policy _).1 (by decide),
   (C2_cipher_suite_policy _).2.1 (by decide),
   (C2_cipher_suite_policy _).2.2 (by decide) (by decide) (by decide)⟩

/-- C3: after AddRoute(P, H), a request whose path is exactly P invokes H, and
the response is exactly H's status and body, unmodified by the dispatcher. -/
theorem C3_registered_route_invokes_handler (d : HTTPSDispatcher) (p : String)
    (H : Handler) (m b : String) :
    dispatch (AddRoute d p H) { method := m, path := p, body := b } =
      H { method := m, path := p, body := b } := by
  simp [dispatch, lookupRoute, AddRoute, List.lookup]

/-- C4: a request whose path is not a key of the route table (exact string
match) gets status 404 with an empty body, and no registered handler is
invoked (the lookup yields none). -/
theorem C4_unregistered_path_404 (d : HTTPSDispatcher) (req : Request)
    (h : ∀ pr ∈ d.routes, pr.1 ≠ req.path) :
    lookupRoute d req.path = none ∧ dispatch d req = notFoundResponse := by
  have hnone : lookupRoute d req.path = none :=
    lookup_eq_none_of_keys d.routes req.path h
  exact ⟨hnone, by simp [dispatch, hnone]⟩

/-- Witness for C4: with only /example registered, /missing resolves to no
handler and gets a bodiless 404. -/
theorem C4_unregistered_path_404_witness :
    lookupRoute (AddRoute (NewHTTPSDispatcher "127.0.0.1:7788") "/example"
      (constHandler 201)) "/missing" = none ∧
    dispatch (AddRoute (NewHTTPSDispatcher "127.0.0.1:7788") "/example"
      (constHandler 201))
      { method := "GET", path := "/missing", body := "" } = notFoundResponse :=
  C4_unregistered_path_404
    (AddRoute (NewHTTPSDispatcher "127.0.0.1:7788") "/example" (constHandler 201))
    { method := "GET", path := "/missing", body := "" }
    (by
    intro pr hpr
    have hpr2 : pr = ("/example", constHandler 201) := by
      simpa [AddRoute, NewHTTPSDispatcher] using hpr
    subst hpr2
    decide)

/-- C5: re-registering path P replaces the old handler: the lookup afterwards
yields only the new handler, and a dispatch to P invokes only the new one,
never the old one and never both. -/
theorem C5_last_write_wins (d : HTTPSDispatcher) (p : String) (h1 h2 : Handler)
    (m b : String) :
    lookupRoute (AddRoute (AddRoute d p h1) p h2) p = some h2 ∧
    dispatch (AddRoute (AddRoute d p h1) p h2)
      { method := m, path := p, body := b } =
      h2 { method := m, path := p, body := b } := by
  constructor
  · simp [lookupRoute, AddRoute, List.lookup]
  · simp [dispatch, lookupRoute, AddRoute, List.lookup]

/-- C6: Start returns nil exactly when shutdown was requested via Stop (the
serve loop only ends when Stop closes the listener); any bind-time failure
returns a non-nil error, and bind failures are the only errors that propagate
out of Start — per-connection events never do. -/
theorem C6_start_error_policy (bindResult : Except String Unit)
    (connections : List ConnectionEvent) :
    (Start bindResult connections = none ↔ ∃ u, bindResult = Except.ok u) ∧
    (∀ e, Start (Except.error e) connections = some e) := by
  constructor
  · constructor
    · intro hnone
      cases bindResult with
      | error e => simp [Start] at hnone
      | ok u => exact ⟨u, rfl⟩
    · rintro ⟨u, rfl⟩
      simp [Start, serveLoop_eq_none]
  · intro e
    rfl

/-- Witness for C6: a run with handled per-connection events ends nil; a bind
failure surfaces as the error. -/
theorem C6_start_error_policy_witness :
    Start (Except.ok ())
      [ConnectionEvent.handshakeRejected, ConnectionEvent.served] = none ∧
    Start (Except.error "listen tcp 127.0.0.1:7788: address already in use") [] =
      some "listen tcp 127.0.0.1:7788: address already in use" :=
  ⟨(C6_start_error_policy (Except.ok ())
      [ConnectionEvent.handshakeRejected, ConnectionEvent.served]).1.mpr ⟨(), rfl⟩,
   (C6_start_error_policy
      (Except.error "listen tcp 127.0.0.1:7788: address already in use") []).2 _⟩

/-- C7: Stop never crashes in any state (it is a total transition): calling it
twice equals calling it once, after Stop the listener is closed and no new
connections are accepted, the state is Stopped, and on an already-stopped
dispatcher with a closed listener it is exactly a no-op. -/
theorem C7_stop_safe (d : HTTPSDispatcher) :
    Stop (Stop d) = Stop d ∧
    acceptsNewConnections (Stop d) = false ∧
    (Stop d).state = DispatcherState.stopped ∧
    (d.state = DispatcherState.stopped → d.listenerOpen = false → Stop d = d) := by
  refine ⟨rfl, rfl, rfl, ?_⟩
  intro hs hl
  cases d
  simp_all [Stop]

/-- Witness for C7: Stop is a no-op on a dispatcher already stopped before
ever starting. -/
theorem C7_stop_safe_witness :
    Stop { boundAddress := "127.0.0.1:7788", routes := [],
           state := DispatcherState.stopped, listenerOpen := false } =
      { boundAddress := "127.0.0.1:7788", routes := [],
        state := DispatcherState.stopped, listenerOpen := false } :=
  (C7_stop_safe { boundAddress := "127.0.0.1:7788", routes := [],
                  state := DispatcherState.stopped,
                  listenerOpen := false }).2.2.2 rfl rfl

/-- C8: N atomic AddRoute registrations for distinct paths applied in any
interleaving (permutation) lose no update: afterwards each path resolves to
its registered handler, and a dispatch beginning after the registrations
returned observes it. -/
theorem C8_concurrent_addroute_no_lost_updates (d : HTTPSDispatcher)
    (regs interleaving : List (String × Handler))
    (hperm : regs.Perm interleaving)
    (hnodup : (regs.map Prod.fst).Nodup)
    (p : String) (h : Handler) (hmem : (p, h) ∈ regs) :
    lookupRoute (interleaving.foldl (fun acc pr => AddRoute acc pr.1 pr.2) d) p =
      some h ∧
    ∀ m b, dispatch (interleaving.foldl (fun acc pr => AddRoute acc pr.1 pr.2) d)
      { method := m, path := p, body := b } =
      h { method := m, path := p, body := b } := by
  have hnd2 : (interleaving.map Prod.fst).Nodup :=
    ((hperm.map Prod.fst).nodup_iff).mp hnodup
  have hmem2 : (p, h) ∈ interleaving := hperm.mem_iff.mp hmem
  have hndrev : (interleaving.reverse.map Prod.fst).Nodup := by
    rw [List.map_reverse]
    exact List.nodup_reverse.mpr hnd2
  have hmemrev : (p, h) ∈ interleaving.reverse := List.mem_reverse.mpr hmem2
  have hlook : lookupRoute
      (interleaving.foldl (fun acc pr => AddRoute acc pr.1 pr.2) d) p = some h := by
    rw [lookupRoute, foldl_AddRoute_routes]
    exact lookup_append_of_mem _ _ _ _ hndrev hmemrev
  refine ⟨hlook, ?_⟩
  intro m b
  simp [dispatch, hlook]

/-- Witness for C8: two registrations applied in swapped order still leave
the first path resolvable to its handler. -/
theorem C8_concurrent_addroute_witness :
    lookupRoute
      ([(("/b" : String), constHandler 202), ("/a", constHandler 201)].foldl
        (fun acc pr => AddRoute acc pr.1 pr.2)
        (NewHTTPSDispatcher "127.0.0.1:7788")) "/a" = some (constHandler 201) :=
  (C8_concurrent_addroute_no_lost_updates (NewHTTPSDispatcher "127.0.0.1:7788")
    [("/a", constHandler 201), ("/b", constHandler 202)]
    [("/b", constHandler 202), ("/a", constHandler 201)]
    (List.Perm.swap _ _ _) (by decide) "/a" (constHandler 201)
    (List.Mem.head _)).1

/-- C9: provider.Get(name) returns a platform with no error exactly for the
names ubuntu, centos and dummy; every other name gets no platform and the
error "Platform <name> could not be found" (Get reads the map and never
mutates the provider). -/
theorem C9_provider_get (options : Options) (name : String) :
    ((∃ plat, (NewProvider options).Get name = Except.ok plat) ↔
      name = "ubuntu" ∨ name = "centos" ∨ name = "dummy") ∧
    (name ≠ "ubuntu" → name ≠ "centos" → name ≠ "dummy" →
      (NewProvider options).Get name =
        Except.error ("Platform " ++ name ++ " could not be found")) := by
  by_cases h1 : name = "ubuntu"
  · subst h1
    refine ⟨⟨fun _ => Or.inl rfl, fun _ => ?_⟩, fun hn _ _ => absurd rfl hn⟩
    exact ⟨Platform.linux NetManager.ubuntuNet (CertManager.ubuntuCert 60)
      (selectDevicePathResolver options) options.Linux, rfl⟩
  · by_cases h2 : name = "centos"
    · subst h2
      refine ⟨⟨fun _ => Or.inr (Or.inl rfl), fun _ => ?_⟩, fun _ hn _ => absurd rfl hn⟩
      exact ⟨Platform.linux NetManager.centosNet (CertManager.centosCert 0)
        (selectDevicePathResolver options) options.Linux, rfl⟩
    · by_cases h3 : name = "dummy"
      · subst h3
        refine ⟨⟨fun _ => Or.inr (Or.inr rfl), fun _ => ?_⟩, fun _ _ hn => absurd rfl hn⟩
        exact ⟨Platform.dummy (selectDevicePathResolver options), rfl⟩
      · have e1 := beq_false_of_ne h1
        have e2 := beq_false_of_ne h2
        have e3 := beq_false_of_ne h3
        constructor
        · constructor
          · rintro ⟨plat, hplat⟩
            simp [provider.Get, NewProvider, List.lookup, e1, e2, e3] at hplat
          · rintro (h | h | h)
            · exact absurd h h1
            · exact absurd h h2
            · exact absurd h h3
        · intro _ _ _
          simp [provider.Get, NewProvider, List.lookup, e1, e2, e3]

/-- A concrete Options value for witnesses: empty resolution type, no virtio
device root, no bind-mount. -/
def defaultTestOptions : Options :=
  { Linux := { DevicePathResolutionType := "",
               VirtioDevicePrefixStr := "",
               BindMountPersistentDisk := false } }

/-- Witness for C9: the name windows is not a platform and yields exactly the
formatted error. -/
theorem C9_provider_get_witness :
    (NewProvider defaultTestOptions).Get "windows" =
      Except.error "Platform windows could not be found" :=
  (C9_provider_get defaultTestOptions "windows").2
    (by decide) (by decide) (by decide)

/-- C10: when Linux.DevicePathResolutionType is neither virtio nor scsi
(the empty string and any unrecognized value included), the switch falls to
its default arm and silently selects the identity resolver — the selection
raises no error by construction — and every platform NewProvider returns
holds that same resolver. -/
theorem C10_default_resolver_identity (options : Options)
    (hv : options.Linux.DevicePathResolutionType ≠ "virtio")
    (hs : options.Linux.DevicePathResolutionType ≠ "scsi") :
    selectDevicePathResolver options = DevicePathResolver.identityResolver ∧
    (∀ name plat, (NewProvider options).Get name = Except.ok plat →
      platformResolver plat = DevicePathResolver.identityResolver) := by
  have hsel : selectDevicePathResolver options = DevicePathResolver.identityResolver := by
    unfold selectDevicePathResolver
    split
    · rename_i heq
      exact absurd heq hv
    · rename_i heq
      exact absurd heq hs
    · rfl
  refine ⟨hsel, ?_⟩
  intro name plat hget
  by_cases h1 : name = "ubuntu"
  · subst h1
    simp [provider.Get, NewProvider, List.lookup] at hget
    rw [← hget]
    simp [platformResolver, hsel]
  · by_cases h2 : name = "centos"
    · subst h2
      simp [provider.Get, NewProvider, List.lookup] at hget
      rw [← hget]
      simp [platformResolver, hsel]
    · by_cases h3 : name = "dummy"
      · subst h3
        simp [provider.Get, NewProvider, List.lookup] at hget
        rw [← hget]
        simp [platformResolver, hsel]
      · simp [provider.Get, NewProvider, List.lookup,
          beq_false_of_ne h1, beq_false_of_ne h2, beq_false_of_ne h3] at hget

/-- Witness for C10: the empty resolution type selects the identity
resolver. -/
theorem C10_default_resolver_identity_witness :
    selectDevicePathResolver defaultTestOptions =
      DevicePathResolver.identityResolver :=
  (C10_default_resolver_identity defaultTestOptions (by decide) (by decide)).1

end BoshAgent
